import Mathlib

set_option maxHeartbeats 1000000

/-!
Verification development for the photos-tank server (src/server.js).

The development shallowly embeds the metadata store helpers (readEvents,
writeEvents, findEvent), the upload transaction handler
(POST /api/events/:eventId/upload) and the gallery archive streamer
(GET /api/events/:eventId/download) as pure Lean functions.  External
effects (filesystem reads/writes, Cloudinary blob writes and deletes,
HTTP fetches) are modelled by explicit state and fault-injection
parameters, so each handler is a total function from a request plus a
world state to a response plus the successor world state.
-/

namespace PhotosTank

/-- Upload record, mirroring the object literal built at server.js:284-296. -/
structure UploadRecord where
  id : String
  filename : String
  originalName : String
  path : String
  thumbnailUrl : String
  type : String
  size : Nat
  guestName : String
  message : String
  uploadedAt : String
  cloudinaryPublicId : String
  deriving DecidableEq, Repr

/-- Event record, mirroring the object literal built at server.js:182-190. -/
structure Event where
  id : String
  name : String
  description : String
  createdAt : String
  link : String
  qrCode : String
  uploads : List UploadRecord
  deriving DecidableEq, Repr

/-- Observable outcome of reading the events.json file: the read either
throws an I/O error, or returns text on which JSON.parse either throws
(content none) or yields an event list (content (some evs)). -/
inductive FileReadOutcome where
  | ioError (msg : String)
  | content (parsed : Option (List Event))
  deriving DecidableEq, Repr

/-- readEvents (server.js:132-140): try to read and parse events.json,
and on any error (read failure or parse failure) log and return []. -/
def readEvents (file : FileReadOutcome) : List Event :=
  match file with
  | .ioError _ => []
  | .content none => []
  | .content (some evs) => evs

/-- findEvent (server.js:151-154). -/
def findEvent (file : FileReadOutcome) (eventId : String) : Option Event :=
  (readEvents file).find? (fun e => e.id == eventId)

/-- Response of GET /api/events/:eventId (server.js:215-226). -/
inductive GetEventResult where
  | notFound (error : String)
  | ok (event : Event)
  deriving DecidableEq, Repr

/-- GET /api/events/:eventId (server.js:215-226). -/
def getEventEndpoint (file : FileReadOutcome) (eventId : String) : GetEventResult :=
  match findEvent file eventId with
  | none => .notFound "Event not found"
  | some e => .ok e

/-- sanitizeInput (server.js:115-124): HTML-escape ampersand, angle
brackets, quotes and slash.  The chained replaces of the source are
equivalent to this single character map because the ampersand pass runs
first and no later replacement output contains a character replaced by a
later pass. -/
def sanitizeInput (s : String) : String :=
  ⟨s.data.flatMap (fun c =>
    if c = '&' then ("&amp;" : String).data
    else if c = '<' then ("&lt;" : String).data
    else if c = '>' then ("&gt;" : String).data
    else if c = '"' then ("&quot;" : String).data
    else if c = '\'' then ("&#x27;" : String).data
    else if c = '/' then ("&#x2F;" : String).data
    else [c])⟩

/-- validateInputLength (server.js:127-130) for a string argument. -/
def validateInputLength (input : String) (maxLength : Nat) : Bool :=
  input.length > 0 && input.length ≤ maxLength

/-- Truthiness of a JavaScript string: the empty string is falsy. -/
def truthy (s : String) : Bool := s ≠ ""

/-- Drop trailing forward slashes, as the extname scan in Node's
path.extname does while looking for the end of the last path segment. -/
def stripTrailing (l : List Char) : List Char :=
  (l.reverse.dropWhile (fun c => c = '/')).reverse

/-- Characters after the last forward slash. -/
def afterLastSlash (l : List Char) : List Char :=
  (l.reverse.takeWhile (fun c => c ≠ '/')).reverse

/-- Node path.extname on a character list: take the last path segment b
(trailing slashes ignored); if b has a dot that is not its first
character, and b is not the directory marker dot-dot, return the suffix
of b from its last dot; otherwise return the empty extension. -/
def jsExtnameL (l : List Char) : List Char :=
  if ((afterLastSlash (stripTrailing l)).reverse).contains '.' then
    if (((afterLastSlash (stripTrailing l)).reverse.dropWhile (fun c => c != '.')).drop 1).isEmpty
      then []
    else if afterLastSlash (stripTrailing l) = ['.', '.'] then []
    else '.' :: ((afterLastSlash (stripTrailing l)).reverse.takeWhile (fun c => c != '.')).reverse
  else []

/-- Node path.extname on strings. -/
def jsExtname (s : String) : String := ⟨jsExtnameL s.data⟩

/-- ALLOWED_MIME_TYPES (server.js:73-83). -/
def ALLOWED_MIME_TYPES : List String :=
  ["image/jpeg", "image/png", "image/gif", "image/webp",
   "video/mp4", "video/webm", "video/ogg", "video/quicktime", "video/x-msvideo"]

/-- ALLOWED_EXTENSIONS (server.js:85-96). -/
def ALLOWED_EXTENSIONS : List String :=
  [".jpg", ".jpeg", ".png", ".gif", ".webp",
   ".mp4", ".webm", ".ogg", ".mov", ".avi"]

/-- JavaScript toLowerCase restricted to its ASCII behavior, which is
all the extension strings exercise. -/
def jsToLower (s : String) : String := ⟨s.data.map Char.toLower⟩

/-- multer fileFilter (server.js:101-109): accept a file exactly when its
declared mime type is on ALLOWED_MIME_TYPES and the lower-cased extension
of its original name is on ALLOWED_EXTENSIONS. -/
def fileFilter (mimetype originalname : String) : Bool :=
  ALLOWED_MIME_TYPES.contains mimetype &&
    ALLOWED_EXTENSIONS.contains (jsToLower (jsExtname originalname))

/-- Incoming multipart file part as multer presents it to the handler. -/
structure ReqFile where
  originalname : String
  mimetype : String
  size : Nat
  deriving DecidableEq, Repr

/-- Result of POST /api/events/:eventId/upload, by response shape:
validationError covers the 400 responses (input validation and the
multer error middleware), notFound the 404s, serverError the 500 sent
from the outer catch, success the 200 body. -/
inductive UploadResult where
  | validationError (error : String)
  | notFound (error : String)
  | serverError (error : String)
  | success (files : List UploadRecord)
  deriving DecidableEq, Repr

/-- Observable outcome of one upload call: the HTTP result, the set of
BlobStore keys present after the call, the events.json state after the
call, and how many Cloudinary upload_stream calls were made. -/
structure UploadOutcome where
  result : UploadResult
  blobs : List String
  metaFile : FileReadOutcome
  blobWriteAttempts : Nat
  deriving DecidableEq, Repr

/-- Guest name guard at server.js:238: fails when the field is missing,
falsy (empty) or fails validateInputLength with bound 100. -/
def guestNameOk : Option String → Bool
  | none => false
  | some g => truthy g && validateInputLength g 100

/-- Message guard at server.js:242: rejects only a truthy message that
fails validateInputLength with bound 500. -/
def messageBad : Option String → Bool
  | none => false
  | some m => truthy m && !(validateInputLength m 500)

/-- Sanitized message value at server.js:248. -/
def sanitizedMessageOf : Option String → String
  | none => ""
  | some m => if truthy m then sanitizeInput m else ""

/-- Fetchable URL Cloudinary reports for a stored public id (the
secure_url field of the upload result); opaque to the server, injective
in the public id. -/
def secureUrl (publicId : String) : String :=
  "https://res.cloudinary.com/demo/" ++ publicId

/-- Best-effort rollback at server.js:304-310, 320-326 and 339-345:
cloudinary.uploader.destroy for each tracked public id, errors swallowed.
Deleting removes every occurrence of the listed keys from the store. -/
def removeKeys (blobs keys : List String) : List String :=
  blobs.filter (fun k => !(keys.contains k))

/-- Upload record built at server.js:284-296 for the file at index i.
genPubId i models the freshly generated Cloudinary public_id (the
Date.now-uuid string of server.js:262), genRecId i the uuidv4 of the
record, now the ISO timestamp.  The thumbnailUrl falls back to
secure_url because no eager transformation is configured. -/
def mkUploadRecord (genPubId genRecId : Nat → String) (now sanitizedGuestName sanitizedMessage : String)
    (i : Nat) (f : ReqFile) : UploadRecord :=
  { id := genRecId i
    filename := genPubId i
    originalName := f.originalname
    path := secureUrl (genPubId i)
    thumbnailUrl := secureUrl (genPubId i)
    type := f.mimetype
    size := f.size
    guestName := sanitizedGuestName
    message := sanitizedMessage
    uploadedAt := now
    cloudinaryPublicId := genPubId i }

/-- Handler body of POST /api/events/:eventId/upload (server.js:229-349),
from the validation at line 238 on.  blobs0 is the BlobStore content
before the call, metaFile the events.json state, writeFails injects an
fs.writeFileSync throw, blobOk i the success of the i-th upload_stream.
Promise.all starts every write, so a batch with one failing write still
stores the blobs of the succeeding writes; the cloudinaryPublicIds
tracking array is populated only after Promise.all resolves
(server.js:281), so in that failure path the outer catch has no ids to
destroy and the succeeded blobs stay in the store. -/
def uploadHandler (blobs0 : List String) (metaFile : FileReadOutcome) (writeFails : Bool)
    (eventId : String) (guestName message : Option String) (files : List ReqFile)
    (blobOk : Nat → Bool) (genPubId genRecId : Nat → String) (now : String) : UploadOutcome :=
  if !(guestNameOk guestName) then
    ⟨.validationError "Guest name is required and must be less than 100 characters",
      blobs0, metaFile, 0⟩
  else if messageBad message then
    ⟨.validationError "Message must be less than 500 characters", blobs0, metaFile, 0⟩
  else
    match findEvent metaFile eventId with
    | none => ⟨.notFound "Event not found", blobs0, metaFile, 0⟩
    | some event =>
      let sanitizedGuestName := sanitizeInput (guestName.getD "")
      let sanitizedMessage := sanitizedMessageOf message
      let n := files.length
      let succeededKeys := (List.range n).filterMap
        (fun i => if blobOk i then some (genPubId i) else none)
      let blobs1 := blobs0 ++ succeededKeys
      if !((List.range n).all blobOk) then
        -- Promise.all rejected: outer catch at server.js:335 runs with an
        -- empty cloudinaryPublicIds array, so nothing is destroyed.
        ⟨.serverError "Failed to upload files", blobs1, metaFile, n⟩
      else
        let pubIds := (List.range n).map genPubId
        let records := files.enum.map
          (fun p => mkUploadRecord genPubId genRecId now sanitizedGuestName sanitizedMessage p.1 p.2)
        let event' := { event with uploads := event.uploads ++ records }
        let events := readEvents metaFile
        match events.findIdx? (fun e => e.id == eventId) with
        | none =>
          ⟨.notFound "Event not found in database", removeKeys blobs1 pubIds, metaFile, n⟩
        | some j =>
          let events' := events.set j event'
          if writeFails then
            -- writeEvents throws (server.js:147): rollback at 320-326
            -- destroys the batch, the rethrown error reaches the outer
            -- catch whose second destroy pass is a no-op, response 500.
            ⟨.serverError "Failed to upload files", removeKeys blobs1 pubIds, metaFile, n⟩
          else
            ⟨.success records, blobs1, .content (some events'), n⟩

/-- Full route POST /api/events/:eventId/upload including the multer
layer (server.js:98-110 and the error middleware at 431-451): the
20-file cap, the 10MB per-file cap and the fileFilter all reject with a
400 before the handler body runs and before any BlobStore write. -/
def uploadEndpoint (blobs0 : List String) (metaFile : FileReadOutcome) (writeFails : Bool)
    (eventId : String) (guestName message : Option String) (files : List ReqFile)
    (blobOk : Nat → Bool) (genPubId genRecId : Nat → String) (now : String) : UploadOutcome :=
  if files.length > 20 then
    ⟨.validationError "Too many files. Maximum 20 files per upload.", blobs0, metaFile, 0⟩
  else if files.any (fun f => f.size > 10 * 1024 * 1024) then
    ⟨.validationError "File too large. Maximum file size is 10MB per file. Please compress your images/videos or use smaller files.",
      blobs0, metaFile, 0⟩
  else if !(files.all (fun f => fileFilter f.mimetype f.originalname)) then
    ⟨.validationError "Invalid file type. Only image and video uploads are allowed.",
      blobs0, metaFile, 0⟩
  else
    uploadHandler blobs0 metaFile writeFails eventId guestName message files
      blobOk genPubId genRecId now

/-- Archive entry appended at server.js:414: name plus fetched bytes. -/
structure ArchiveEntry where
  name : String
  content : List Nat
  deriving DecidableEq, Repr

/-- Response headers set at server.js:383-384. -/
structure DownloadHeaders where
  contentType : String
  contentDisposition : String
  deriving DecidableEq, Repr

/-- Result of GET /api/events/:eventId/download: either a 404 with no
headers and no body bytes, or a 200 with the two headers and the
streamed archive entries. -/
inductive DownloadResult where
  | notFound (error : String)
  | ok (headers : DownloadHeaders) (entries : List ArchiveEntry)
  deriving DecidableEq, Repr

/-- Character class of the regex at server.js:381 with the i flag:
ASCII letters of either case and digits. -/
def isAlnumCI (c : Char) : Bool :=
  ('a' ≤ c && c ≤ 'z') || ('A' ≤ c && c ≤ 'Z') || ('0' ≤ c && c ≤ '9')

/-- event.name.replace of server.js:381: every character outside the
class is replaced by an underscore. -/
def sanitizeEventName (s : String) : String :=
  ⟨s.data.map (fun c => if isAlnumCI c then c else '_')⟩

/-- String(x).slice(0, n) of server.js:382. -/
def jsSliceTake (s : String) (n : Nat) : String := ⟨s.data.take n⟩

/-- Extension used for an archive entry (server.js:411): the original
name's extension, or .jpg when extname returns the empty string (the
only falsy extname value). -/
def extWithDefault (originalName : String) : String :=
  if jsExtname originalName = "" then ".jpg" else jsExtname originalName

/-- Archive entry name built at server.js:412: guest name, underscore,
record id, extension of the original client filename.  The raw storage
key (filename / cloudinaryPublicId) is not used. -/
def entryName (u : UploadRecord) : String :=
  u.guestName ++ "_" ++ u.id ++ extWithDefault u.originalName

/-- Per-file fetch loop of server.js:402-419.  fetchBlob url is none when
the fetch throws or returns a non-ok response; such files are skipped
(continue) and every successful fetch contributes exactly one entry, in
upload order. -/
def archiveEntries (uploads : List UploadRecord)
    (fetchBlob : String → Option (List Nat)) : List ArchiveEntry :=
  uploads.filterMap (fun u =>
    match fetchBlob u.path with
    | none => none
    | some bytes => some ⟨entryName u, bytes⟩)

/-- GET /api/events/:eventId/download (server.js:370-428). -/
def downloadEndpoint (file : FileReadOutcome) (eventId : String)
    (fetchBlob : String → Option (List Nat)) : DownloadResult :=
  match findEvent file eventId with
  | none => .notFound "Event not found"
  | some event =>
    if event.uploads.length = 0 then .notFound "No files to download"
    else
      let safeEventName := sanitizeEventName event.name
      let safeEventId := jsSliceTake eventId 8
      let headers : DownloadHeaders :=
        { contentType := "application/zip"
          contentDisposition :=
            "attachment; filename=\"" ++ safeEventName ++ "_" ++ safeEventId ++ "_gallery.zip\"" }
      .ok headers (archiveEntries event.uploads fetchBlob)

/-- Entry names of the archive a download produces (empty on a 404). -/
def downloadEntryNames (file : FileReadOutcome) (eventId : String)
    (fetchBlob : String → Option (List Nat)) : List String :=
  match downloadEndpoint file eventId fetchBlob with
  | .notFound _ => []
  | .ok _ entries => entries.map (fun e => e.name)

/-- Metadata commit of one upload transaction as computed from the
snapshot S it read (findEvent at server.js:250 and readEvents at 300
see the same state in a given schedule): locate the event, append the
batch records to its uploads, replace the slot in the full list
(server.js:298-314). -/
def txnCommit (S : List Event) (eventId : String) (recs : List UploadRecord) : List Event :=
  match S.find? (fun e => e.id == eventId) with
  | none => S
  | some ev =>
    let ev' := { ev with uploads := ev.uploads ++ recs }
    match S.findIdx? (fun e => e.id == eventId) with
    | none => S
    | some j => S.set j ev'

/-- writeEvents (server.js:142-149) replaces the whole events.json file
with its argument: the previous file content does not survive, which is
what makes the last concurrent writer win. -/
def fileReplace (_old written : List Event) : List Event := written

/-- Serialized schedule of two upload transactions A then B on the same
event: B reads the state A wrote. -/
def serialSchedule (S0 : List Event) (eventId : String)
    (rA rB : List UploadRecord) : List Event :=
  let afterA := fileReplace S0 (txnCommit S0 eventId rA)
  fileReplace afterA (txnCommit afterA eventId rB)

/-- Interleaved schedule read-A, read-B, write-A, write-B: both
transactions compute their commit from the initial state S0, and B's
whole-file write lands last. -/
def lostUpdateSchedule (S0 : List Event) (eventId : String)
    (rA rB : List UploadRecord) : List Event :=
  fileReplace (fileReplace S0 (txnCommit S0 eventId rA)) (txnCommit S0 eventId rB)

/-! Helper lemmas. -/

/-- Each successful fetch contributes exactly one archive entry. -/
theorem archiveEntries_length (l : List UploadRecord) (fb : String → Option (List Nat)) :
    (archiveEntries l fb).length =
      (l.filter (fun u => (fb u.path).isSome)).length := by
  induction l with
  | nil => rfl
  | cons u t ih =>
    simp only [archiveEntries, List.filterMap_cons, List.filter_cons] at *
    cases h : fb u.path <;> simp [h, ih]

/-- Names of the produced entries are the entry names of exactly the
records whose fetch succeeded, in order. -/
theorem archiveEntries_names (l : List UploadRecord) (fb : String → Option (List Nat)) :
    (archiveEntries l fb).map (fun e => e.name) =
      (l.filter (fun u => (fb u.path).isSome)).map entryName := by
  induction l with
  | nil => rfl
  | cons u t ih =>
    simp only [archiveEntries, List.filterMap_cons, List.filter_cons] at *
    cases h : fb u.path <;> simp [h, ih]

/-- A positive find? implies a positive findIdx?. -/
theorem findIdx?_isSome_of_find? {α : Type} (p : α → Bool) :
    ∀ (l : List α) (a : α), l.find? p = some a → ∃ j, l.findIdx? p = some j
  | [], a, h => by simp [List.find?] at h
  | x :: t, a, h => by
    by_cases hx : p x
    · exact ⟨0, by simp [List.findIdx?, hx]⟩
    · simp only [List.find?, hx] at h
      obtain ⟨j, hj⟩ := findIdx?_isSome_of_find? p t a (by simpa [hx] using h)
      exact ⟨j + 1, by simp [List.findIdx?, hx, hj]⟩

/-- When every write in the batch succeeds, the succeeded-key set is the
whole batch. -/
theorem filterMap_if_all {l : List Nat} {p : Nat → Bool} {f : Nat → String}
    (h : ∀ i ∈ l, p i = true) :
    l.filterMap (fun i => if p i then some (f i) else none) = l.map f := by
  induction l with
  | nil => rfl
  | cons x t ih =>
    have hx := h x (List.mem_cons_self x t)
    simp [List.filterMap_cons, hx, ih (fun i hi => h i (List.mem_cons_of_mem x hi))]

/-- Deleting exactly the batch keys from a store that held the batch on
top of older, disjoint keys restores the older store. -/
theorem removeKeys_append_batch (blobs0 keys : List String)
    (h : ∀ k ∈ blobs0, k ∉ keys) :
    removeKeys (blobs0 ++ keys) keys = blobs0 := by
  unfold removeKeys
  rw [List.filter_append]
  have h1 : blobs0.filter (fun k => !(keys.contains k)) = blobs0 := by
    apply List.filter_eq_self.mpr
    intro a ha
    simp only [Bool.not_eq_true']
    exact (Bool.not_eq_true _).mp (fun hc => h a ha (List.elem_iff.mp hc))
  have h2 : keys.filter (fun k => !(keys.contains k)) = [] := by
    apply List.filter_eq_nil_iff.mpr
    intro a ha
    simp [List.elem_iff, ha]
  rw [h1, h2, List.append_nil]

/-- C10: readEvents never throws: on any read or parse failure of the
metadata file it returns the empty list, so findEvent reports the event
absent and the endpoint answers 404 Event not found rather than
surfacing a storage error. -/
theorem C10_readEvents_fallback_empty (msg eventId : String) :
    readEvents (.ioError msg) = [] ∧
    readEvents (.content none) = [] ∧
    findEvent (.ioError msg) eventId = none ∧
    findEvent (.content none) eventId = none ∧
    getEventEndpoint (.ioError msg) eventId = .notFound "Event not found" ∧
    getEventEndpoint (.content none) eventId = .notFound "Event not found" := by
  refine ⟨rfl, rfl, rfl, rfl, rfl, rfl⟩

/-- Unfolding lemma: the sanitized event name is the character map. -/
theorem sanitizeEventName_data (s : String) :
    (sanitizeEventName s).data = s.data.map (fun c => if isAlnumCI c then c else '_') := rfl

/-- Unfolding lemma: the short id is the 8-character take. -/
theorem jsSliceTake_data (s : String) (n : Nat) :
    (jsSliceTake s n).data = s.data.take n := rfl

/-- Concrete upload records, events and stores used by the witnesses. -/
def sampleU1 : UploadRecord :=
  ⟨"id1", "pub1", "a.jpg", "urlA", "urlA", "image/jpeg", 3, "Alice", "", "t1", "pub1"⟩

def sampleU2 : UploadRecord :=
  ⟨"id2", "pub2", "b.png", "urlB", "urlB", "image/png", 4, "Bob", "", "t2", "pub2"⟩

def sampleU3 : UploadRecord :=
  ⟨"id3", "pub3", "c.mp4", "urlC", "urlC", "video/mp4", 5, "Cara", "", "t3", "pub3"⟩

def sampleWedding : Event :=
  ⟨"wed12345-xyz", "Wedding Day!", "", "t0", "lnk", "qr", [sampleU1, sampleU2, sampleU3]⟩

def sampleMeta : FileReadOutcome := .content (some [sampleWedding])

/-- Blob availability for the witnesses: the blob behind urlB is gone. -/
def sampleFetch : String → Option (List Nat) :=
  fun url => if url = "urlB" then none else some [7]

def sampleEmptyEvent : Event := ⟨"empty123", "Empty", "", "t0", "lnk", "qr", []⟩

def sampleEmptyMeta : FileReadOutcome := .content (some [sampleEmptyEvent])

/-- C5: a download request for an existing event whose Upload list is
empty fails with the 404 No files to download response before any
headers are set or any archive entry is produced; nothing is sent. -/
theorem C5_empty_gallery_no_content (file : FileReadOutcome) (eventId : String)
    (fetchBlob : String → Option (List Nat)) (e : Event)
    (hfind : findEvent file eventId = some e) (hempty : e.uploads = []) :
    downloadEndpoint file eventId fetchBlob = .notFound "No files to download" := by
  unfold downloadEndpoint
  rw [hfind]
  simp [hempty]

/-- Witness for C5 on a concrete empty event. -/
theorem C5_empty_gallery_no_content_witness :
    downloadEndpoint sampleEmptyMeta "empty123" sampleFetch = .notFound "No files to download" :=
  C5_empty_gallery_no_content sampleEmptyMeta "empty123" sampleFetch sampleEmptyEvent (by rfl) rfl

/-- C6: for an event with a nonempty Upload list the download completes
successfully even when some fetches fail: failed files are skipped and
the archive holds exactly one entry per Upload record whose fetch
succeeded, named by entryName, in upload order. -/
theorem C6_per_file_fault_isolation (file : FileReadOutcome) (eventId : String)
    (fetchBlob : String → Option (List Nat)) (e : Event)
    (hfind : findEvent file eventId = some e) (hne : e.uploads ≠ []) :
    ∃ headers, downloadEndpoint file eventId fetchBlob =
        .ok headers (archiveEntries e.uploads fetchBlob) ∧
      (archiveEntries e.uploads fetchBlob).length =
        (e.uploads.filter (fun u => (fetchBlob u.path).isSome)).length ∧
      (archiveEntries e.uploads fetchBlob).map (fun en => en.name) =
        (e.uploads.filter (fun u => (fetchBlob u.path).isSome)).map entryName := by
  refine ⟨⟨"application/zip",
      "attachment; filename=\"" ++ sanitizeEventName e.name ++ "_" ++
        jsSliceTake eventId 8 ++ "_gallery.zip\""⟩,
    ?_, archiveEntries_length _ _, archiveEntries_names _ _⟩
  unfold downloadEndpoint
  rw [hfind]
  simp [List.length_eq_zero, hne]

/-- Witness for C6: the Wedding event has 3 Upload records, the blob of
the second is missing, and the archive has exactly 2 entries. -/
theorem C6_per_file_fault_isolation_witness :
    (∃ headers, downloadEndpoint sampleMeta "wed12345-xyz" sampleFetch =
        .ok headers (archiveEntries sampleWedding.uploads sampleFetch) ∧
      (archiveEntries sampleWedding.uploads sampleFetch).length =
        (sampleWedding.uploads.filter (fun u => (sampleFetch u.path).isSome)).length ∧
      (archiveEntries sampleWedding.uploads sampleFetch).map (fun en => en.name) =
        (sampleWedding.uploads.filter (fun u => (sampleFetch u.path).isSome)).map entryName) ∧
    (archiveEntries sampleWedding.uploads sampleFetch).length = 2 :=
  ⟨C6_per_file_fault_isolation sampleMeta "wed12345-xyz" sampleFetch sampleWedding
      (by rfl) (by decide), by rfl⟩

/-- C8: a successful download responds with Content-Type application/zip
and a Content-Disposition attachment filename built as sanitized event
name, underscore, short id, underscore, gallery.zip; the sanitizer keeps
exactly the case-insensitive ASCII alphanumerics and turns every other
character into an underscore, and the short id is a prefix of the event
identifier. -/
theorem C8_download_headers (file : FileReadOutcome) (eventId : String)
    (fetchBlob : String → Option (List Nat)) (e : Event)
    (hfind : findEvent file eventId = some e) (hne : e.uploads ≠ []) :
    (∃ entries, downloadEndpoint file eventId fetchBlob =
      .ok ⟨"application/zip",
           "attachment; filename=\"" ++ sanitizeEventName e.name ++ "_" ++
             jsSliceTake eventId 8 ++ "_gallery.zip\""⟩ entries) ∧
    (sanitizeEventName e.name).data.length = e.name.data.length ∧
    (∀ p ∈ e.name.data.zip (sanitizeEventName e.name).data,
      (isAlnumCI p.1 = true → p.2 = p.1) ∧ (isAlnumCI p.1 = false → p.2 = '_')) ∧
    (jsSliceTake eventId 8).data ++ eventId.data.drop 8 = eventId.data := by
  refine ⟨⟨archiveEntries e.uploads fetchBlob, ?_⟩, ?_, ?_, ?_⟩
  · unfold downloadEndpoint
    rw [hfind]
    simp [List.length_eq_zero, hne]
  · simp [sanitizeEventName_data]
  · intro p hp
    have hz : e.name.data.zip (sanitizeEventName e.name).data =
        e.name.data.map (fun c => (c, if isAlnumCI c then c else '_')) := by
      rw [sanitizeEventName_data]
      simpa using List.zip_map' id (fun c => if isAlnumCI c then c else '_') e.name.data
    rw [hz] at hp
    rcases List.mem_map.mp hp with ⟨c, _, rfl⟩
    by_cases h : isAlnumCI c = true
    · refine ⟨fun _ => by simp [h], fun hfalse => ?_⟩
      rw [h] at hfalse
      cases hfalse
    · refine ⟨fun htrue => absurd htrue h, fun _ => ?_⟩
      simp [h]
  · exact List.take_append_drop 8 eventId.data

/-- Witness for C8 on the concrete Wedding event. -/
theorem C8_download_headers_witness :
    ((∃ entries, downloadEndpoint sampleMeta "wed12345-xyz" sampleFetch =
      .ok ⟨"application/zip",
           "attachment; filename=\"" ++ sanitizeEventName sampleWedding.name ++ "_" ++
             jsSliceTake "wed12345-xyz" 8 ++ "_gallery.zip\""⟩ entries) ∧
    (sanitizeEventName sampleWedding.name).data.length = sampleWedding.name.data.length ∧
    (∀ p ∈ sampleWedding.name.data.zip (sanitizeEventName sampleWedding.name).data,
      (isAlnumCI p.1 = true → p.2 = p.1) ∧ (isAlnumCI p.1 = false → p.2 = '_')) ∧
    (jsSliceTake "wed12345-xyz" 8).data ++ ("wed12345-xyz" : String).data.drop 8 =
      ("wed12345-xyz" : String).data) ∧
    sanitizeEventName sampleWedding.name = "Wedding_Day_" ∧
    jsSliceTake "wed12345-xyz" 8 = "wed12345" :=
  ⟨C8_download_headers sampleMeta "wed12345-xyz" sampleFetch sampleWedding (by rfl) (by decide),
    by rfl, by rfl⟩

/-- When the batch passes the multer layer (count, size, filter), the
route reduces to the handler body. -/
theorem uploadEndpoint_passes (blobs0 : List String) (metaFile : FileReadOutcome)
    (writeFails : Bool) (eventId : String) (guestName message : Option String)
    (files : List ReqFile) (blobOk : Nat → Bool) (genPubId genRecId : Nat → String)
    (now : String)
    (hlen : files.length ≤ 20)
    (hsize : files.any (fun f => f.size > 10 * 1024 * 1024) = false)
    (hfilter : files.all (fun f => fileFilter f.mimetype f.originalname) = true) :
    uploadEndpoint blobs0 metaFile writeFails eventId guestName message files
        blobOk genPubId genRecId now =
      uploadHandler blobs0 metaFile writeFails eventId guestName message files
        blobOk genPubId genRecId now := by
  unfold uploadEndpoint
  rw [if_neg (by omega), hsize, hfilter]
  simp

/-- C3 counterexample: a file whose declared media type image/png and
whose filename extension .mp4 are each individually on the allow-lists
but mismatched passes the upload file filter, i.e. it is accepted, not
rejected. -/
theorem C3_counterexample_mismatch_accepted :
    fileFilter "image/png" "holiday.mp4" = true := by rfl

/-- C3 (amended): a file is accepted exactly when its declared media
type is on ALLOWED_MIME_TYPES and the lower-cased extension of its
filename is on ALLOWED_EXTENSIONS, the two checks being independent (no
agreement between type and extension is enforced); and any upload
request containing a file whose extension is .exe is rejected with a
400 validation error before the handler body runs, with zero BlobStore
writes and no state change. -/
theorem C3_allowlist_no_agreement :
    (∀ m o : String, fileFilter m o = true ↔
        (ALLOWED_MIME_TYPES.contains m = true ∧
         ALLOWED_EXTENSIONS.contains (jsToLower (jsExtname o)) = true)) ∧
    (∀ (blobs0 : List String) (metaFile : FileReadOutcome) (writeFails : Bool)
        (eventId : String) (guestName message : Option String) (files : List ReqFile)
        (blobOk : Nat → Bool) (genPubId genRecId : Nat → String) (now : String)
        (f : ReqFile), f ∈ files → jsToLower (jsExtname f.originalname) = ".exe" →
        ∃ err, uploadEndpoint blobs0 metaFile writeFails eventId guestName message files
            blobOk genPubId genRecId now =
          ⟨.validationError err, blobs0, metaFile, 0⟩) := by
  constructor
  · intro m o
    simp [fileFilter, Bool.and_eq_true]
  · intro blobs0 metaFile writeFails eventId guestName message files
      blobOk genPubId genRecId now f hf hexe
    have hff : fileFilter f.mimetype f.originalname = false := by
      unfold fileFilter
      rw [hexe]
      have hE : ALLOWED_EXTENSIONS.contains (".exe" : String) = false := by rfl
      rw [hE, Bool.and_false]
    have hall : files.all (fun g => fileFilter g.mimetype g.originalname) = false := by
      cases hcase : files.all (fun g => fileFilter g.mimetype g.originalname) with
      | false => rfl
      | true =>
        have hft := List.all_eq_true.mp hcase f hf
        simp only [hff] at hft
        cases hft
    unfold uploadEndpoint
    by_cases h1 : files.length > 20
    · rw [if_pos h1]
      exact ⟨_, rfl⟩
    · rw [if_neg h1]
      cases h2 : files.any (fun g => g.size > 10 * 1024 * 1024) with
      | true => exact ⟨_, rfl⟩
      | false =>
        rw [hall]
        exact ⟨_, rfl⟩

/-- Concrete disallowed file used by the C3 witness. -/
def exeFile : ReqFile := ⟨"malware.exe", "image/png", 3⟩

/-- Witness for the amended C3 on a concrete request with an .exe file. -/
theorem C3_allowlist_no_agreement_witness :
    ∃ err, uploadEndpoint [] sampleMeta false "wed12345-xyz" (some "Alice") none [exeFile]
        (fun _ => true) (fun i => "p" ++ toString i) (fun i => "r" ++ toString i) "t9" =
      ⟨.validationError err, [], sampleMeta, 0⟩ :=
  C3_allowlist_no_agreement.2 [] sampleMeta false "wed12345-xyz" (some "Alice") none [exeFile]
    (fun _ => true) (fun i => "p" ++ toString i) (fun i => "r" ++ toString i) "t9" exeFile
    (by simp) (by rfl)

/-- C4: an upload naming an event identifier absent from the metadata
store returns the 404 Event not found with zero BlobStore writes and no
state change; and the existence check runs only after input validation:
with an invalid guest name the validation 400 answers first (again with
zero writes), whatever the metadata store holds. -/
theorem C4_upload_missing_event_not_found
    (blobs0 : List String) (metaFile : FileReadOutcome) (writeFails : Bool)
    (eventId : String) (guestName message : Option String) (files : List ReqFile)
    (blobOk : Nat → Bool) (genPubId genRecId : Nat → String) (now : String)
    (hlen : files.length ≤ 20)
    (hsize : files.any (fun f => f.size > 10 * 1024 * 1024) = false)
    (hfilter : files.all (fun f => fileFilter f.mimetype f.originalname) = true) :
    (guestNameOk guestName = true → messageBad message = false →
      findEvent metaFile eventId = none →
      uploadEndpoint blobs0 metaFile writeFails eventId guestName message files
          blobOk genPubId genRecId now =
        ⟨.notFound "Event not found", blobs0, metaFile, 0⟩) ∧
    (guestNameOk guestName = false →
      uploadEndpoint blobs0 metaFile writeFails eventId guestName message files
          blobOk genPubId genRecId now =
        ⟨.validationError "Guest name is required and must be less than 100 characters",
          blobs0, metaFile, 0⟩) := by
  rw [uploadEndpoint_passes blobs0 metaFile writeFails eventId guestName message files
      blobOk genPubId genRecId now hlen hsize hfilter]
  constructor
  · intro hg hm hfind
    unfold uploadHandler
    rw [hg, hm, hfind]
    simp
  · intro hg
    unfold uploadHandler
    rw [hg]
    simp

/-- Witness for C4 on a concrete request naming an unknown event. -/
theorem C4_upload_missing_event_not_found_witness :
    uploadEndpoint [] sampleMeta false "no-such-event" (some "Alice") none
        [⟨"a.jpg", "image/jpeg", 5⟩] (fun _ => true)
        (fun i => "p" ++ toString i) (fun i => "r" ++ toString i) "t9" =
      ⟨.notFound "Event not found", [], sampleMeta, 0⟩ :=
  (C4_upload_missing_event_not_found [] sampleMeta false "no-such-event" (some "Alice") none
      [⟨"a.jpg", "image/jpeg", 5⟩] (fun _ => true)
      (fun i => "p" ++ toString i) (fun i => "r" ++ toString i) "t9"
      (by decide) (by rfl) (by rfl)).1 (by rfl) (by rfl) (by rfl)

/-- Concrete scenario for C1: a 2-file batch whose first blob write
succeeds and whose second fails. -/
def bugFiles : List ReqFile := [⟨"a.jpg", "image/jpeg", 5⟩, ⟨"b.png", "image/png", 7⟩]

/-- Fault model for C1: write 0 succeeds, write 1 fails. -/
def bugBlobOk : Nat → Bool := fun i => i == 0

/-- Outcome of the C1 scenario starting from an empty BlobStore. -/
def bugOut : UploadOutcome :=
  uploadEndpoint [] sampleMeta false "wed12345-xyz" (some "Alice") none bugFiles
    bugBlobOk (fun i => "pub-" ++ toString i) (fun i => "rec-" ++ toString i) "t9"

/-- C1: when one of the parallel blob writes fails, the call does return
an error and leaves the Upload list unchanged, but the write that had
already succeeded is NOT deleted: the key pub-0 is still in the
BlobStore after the call.  The cloudinaryPublicIds tracking array is
populated only after Promise.all resolves (server.js:281), so the
rollback in the catch block (server.js:338-346) — whose comments
document the intent to delete any successfully uploaded files — has
nothing to delete, contradicting the claimed zero-orphan guarantee. -/
theorem C1_partial_blob_failure_leaves_orphan :
    bugOut.result = .serverError "Failed to upload files" ∧
    bugOut.blobs = ["pub-0"] ∧
    bugOut.metaFile = sampleMeta ∧
    bugOut.blobWriteAttempts = 2 :=
  ⟨rfl, rfl, rfl, rfl⟩

/-- C2: if every blob write of the batch succeeds and the following
metadata write fails, the coordinator deletes every just-written blob
(restoring the prior BlobStore content; batch keys fresh), propagates a
500, and leaves the events.json file — hence the event's Upload list —
unchanged. -/
theorem C2_metadata_write_failure_rolls_back
    (blobs0 : List String) (metaFile : FileReadOutcome)
    (eventId : String) (guestName message : Option String) (files : List ReqFile)
    (blobOk : Nat → Bool) (genPubId genRecId : Nat → String) (now : String) (e : Event)
    (hg : guestNameOk guestName = true) (hm : messageBad message = false)
    (hfind : findEvent metaFile eventId = some e)
    (hall : ∀ i, i < files.length → blobOk i = true)
    (hfresh : ∀ i, i < files.length → genPubId i ∉ blobs0)
    (hlen : files.length ≤ 20)
    (hsize : files.any (fun f => f.size > 10 * 1024 * 1024) = false)
    (hfilter : files.all (fun f => fileFilter f.mimetype f.originalname) = true) :
    uploadEndpoint blobs0 metaFile true eventId guestName message files
        blobOk genPubId genRecId now =
      ⟨.serverError "Failed to upload files", blobs0, metaFile, files.length⟩ := by
  rw [uploadEndpoint_passes _ _ _ _ _ _ _ _ _ _ _ hlen hsize hfilter]
  have hAll : (List.range files.length).all blobOk = true := by
    rw [List.all_eq_true]
    intro i hi
    exact hall i (List.mem_range.mp hi)
  have hkeys : (List.range files.length).filterMap
      (fun i => if blobOk i then some (genPubId i) else none) =
      (List.range files.length).map genPubId :=
    filterMap_if_all (fun i hi => hall i (List.mem_range.mp hi))
  have hfind' : (readEvents metaFile).find? (fun e' => e'.id == eventId) = some e := hfind
  obtain ⟨j, hj⟩ := findIdx?_isSome_of_find? (fun e' => e'.id == eventId)
    (readEvents metaFile) e hfind'
  have hrm : removeKeys (blobs0 ++ (List.range files.length).map genPubId)
      ((List.range files.length).map genPubId) = blobs0 := by
    apply removeKeys_append_batch
    intro k hk hmem
    obtain ⟨i, hi, rfl⟩ := List.mem_map.mp hmem
    exact hfresh i (List.mem_range.mp hi) hk
  unfold uploadHandler
  rw [hg, hm, hfind]
  simp only [Bool.not_true, Bool.false_eq_true, if_false, hAll, hkeys, hj, hrm]
  simp

/-- Witness for C2: two files, both writes succeed, metadata write
fails; the prior store content old-key survives, the batch is gone. -/
theorem C2_metadata_write_failure_rolls_back_witness :
    uploadEndpoint ["old-key"] sampleMeta true "wed12345-xyz" (some "Alice") none bugFiles
        (fun _ => true) (fun i => "pub-" ++ toString i) (fun i => "rec-" ++ toString i) "t9" =
      ⟨.serverError "Failed to upload files", ["old-key"], sampleMeta, 2⟩ :=
  C2_metadata_write_failure_rolls_back ["old-key"] sampleMeta "wed12345-xyz" (some "Alice")
    none bugFiles (fun _ => true) (fun i => "pub-" ++ toString i)
    (fun i => "rec-" ++ toString i) "t9" sampleWedding rfl rfl rfl
    (fun _ _ => rfl)
    (by intro i hi
        have h2 : i < 2 := hi
        interval_cases i <;> decide)
    (by decide) rfl rfl

/-- Commit of a batch against a single-event store. -/
theorem txnCommit_singleton (ev : Event) (recs : List UploadRecord) :
    txnCommit [ev] ev.id recs = [{ ev with uploads := ev.uploads ++ recs }] := by
  unfold txnCommit
  simp [List.find?, List.findIdx?_cons]

/-- C9: two upload calls adding disjoint batches to the same event must
leave the union of both batches; under a serialized schedule the naive
commit does produce the union (size the sum of both batch sizes), but
the commit is a plain read-whole-then-write-whole with no atomic
update, so the interleaving read-A, read-B, write-A, write-B makes B
overwrite the file computed from the pre-A state: A's records are lost
even though the call reported success. -/
theorem C9_concurrent_uploads_union_vs_lost_update (e : Event) (rA rB : List UploadRecord) :
    (serialSchedule [e] e.id rA rB = [{ e with uploads := (e.uploads ++ rA) ++ rB }] ∧
      ((e.uploads ++ rA) ++ rB).length = e.uploads.length + rA.length + rB.length) ∧
    (lostUpdateSchedule [e] e.id rA rB = [{ e with uploads := e.uploads ++ rB }] ∧
      (∀ r ∈ rA, r ∉ e.uploads → r ∉ rB → r ∉ e.uploads ++ rB)) := by
  refine ⟨⟨?_, by simp [Nat.add_assoc]⟩, ⟨?_, ?_⟩⟩
  · show txnCommit (txnCommit [e] e.id rA) e.id rB = _
    rw [txnCommit_singleton e rA]
    exact txnCommit_singleton { e with uploads := e.uploads ++ rA } rB
  · exact txnCommit_singleton e rB
  · intro r _ hnotU hnotB hmem
    rcases List.mem_append.mp hmem with h | h
    · exact hnotU h
    · exact hnotB h

/-- Witness for C9 on a concrete event and two one-record batches. -/
theorem C9_concurrent_uploads_witness :
    serialSchedule [sampleEmptyEvent] "empty123" [sampleU1] [sampleU2] =
      [{ sampleEmptyEvent with uploads := [sampleU1, sampleU2] }] ∧
    lostUpdateSchedule [sampleEmptyEvent] "empty123" [sampleU1] [sampleU2] =
      [{ sampleEmptyEvent with uploads := [sampleU2] }] ∧
    sampleU1 ∉ ({ sampleEmptyEvent with uploads := [sampleU2] } : Event).uploads :=
  ⟨(C9_concurrent_uploads_union_vs_lost_update sampleEmptyEvent [sampleU1] [sampleU2]).1.1,
   (C9_concurrent_uploads_union_vs_lost_update sampleEmptyEvent [sampleU1] [sampleU2]).2.1,
   (C9_concurrent_uploads_union_vs_lost_update sampleEmptyEvent [sampleU1] [sampleU2]).2.2
     sampleU1 (by simp) (by decide) (by decide)⟩

/-- Unfolding lemma: string concatenation concatenates the character
data. -/
theorem data_append (a b : String) : (a ++ b).data = a.data ++ b.data := rfl

/-- Shape of an extname result: empty, or a dot followed by a dot-free
tail (the extension starts at the last dot of the segment). -/
theorem jsExtnameL_shape (l : List Char) :
    jsExtnameL l = [] ∨ ∃ t, jsExtnameL l = '.' :: t ∧ '.' ∉ t := by
  unfold jsExtnameL
  split
  · split
    · exact Or.inl rfl
    · split
      · exact Or.inl rfl
      · refine Or.inr ⟨_, rfl, fun hmem => ?_⟩
        have h1 := List.mem_reverse.mp hmem
        have h2 := List.mem_takeWhile_imp h1
        simp at h2
  · exact Or.inl rfl

/-- Shape of the archive extension: always a dot followed by a dot-free
tail, the default .jpg covering the empty extname. -/
theorem extWithDefault_shape (o : String) :
    ∃ t, (extWithDefault o).data = '.' :: t ∧ '.' ∉ t := by
  unfold extWithDefault
  split
  · exact ⟨['j', 'p', 'g'], rfl, by decide⟩
  · next h =>
    rcases jsExtnameL_shape o.data with h0 | ⟨t, ht, hn⟩
    · have h00 : jsExtname o = "" := String.ext h0
      exact absurd h00 h
    · exact ⟨t, ht, hn⟩

/-- Splitting a character list at the first occurrence of a marker
character that occurs in neither prefix is unambiguous. -/
theorem append_cons_cancel_of_not_mem {c : Char} :
    ∀ {l1 l2 t1 t2 : List Char}, l1 ++ c :: t1 = l2 ++ c :: t2 →
      c ∉ l1 → c ∉ l2 → l1 = l2
  | [], [], _, _, _, _, _ => rfl
  | [], b :: l2, t1, t2, h, _, h2 => by
    simp only [List.nil_append, List.cons_append] at h
    injection h with h1' _
    subst h1'
    exact absurd (List.mem_cons_self c l2) h2
  | a :: l1, [], t1, t2, h, h1, _ => by
    simp only [List.nil_append, List.cons_append] at h
    injection h with h1' _
    subst h1'
    exact absurd (List.mem_cons_self a l1) h1
  | a :: l1, b :: l2, t1, t2, h, h1, h2 => by
    simp only [List.cons_append] at h
    injection h with h1' h2'
    have hrec := append_cons_cancel_of_not_mem h2'
      (fun hm => h1 (List.mem_cons_of_mem a hm))
      (fun hm => h2 (List.mem_cons_of_mem b hm))
    rw [h1', hrec]

/-- Entry names with the same guest name and distinct dot-free record
ids never coincide: the name splits unambiguously at the first dot
after the id. -/
theorem entryName_ne_of_id_ne (u v : UploadRecord)
    (hg : u.guestName = v.guestName) (hne : u.id ≠ v.id)
    (hu : '.' ∉ u.id.data) (hv : '.' ∉ v.id.data) :
    entryName u ≠ entryName v := by
  intro heq
  obtain ⟨t1, ht1, _⟩ := extWithDefault_shape u.originalName
  obtain ⟨t2, ht2, _⟩ := extWithDefault_shape v.originalName
  have hdata := congrArg String.data heq
  unfold entryName at hdata
  simp only [data_append, ht1, ht2, hg, List.append_assoc] at hdata
  have hmid := List.append_cancel_left hdata
  simp only [List.singleton_append, List.cons.injEq, true_and] at hmid
  have hids : u.id.data = v.id.data := append_cons_cancel_of_not_mem hmid hu hv
  exact hne (String.ext hids)

/-- C7: the archive entry name is a function of the guest name, the
record id and the original filename only (the raw storage key plays no
part in it); two downloads of the same upload list produce the same
entry-name sequence; and with a common guest name two records with
distinct dot-free ids never produce colliding entry names. -/
theorem C7_entry_names_deterministic_and_collision_free :
    (∀ u v : UploadRecord, u.guestName = v.guestName → u.id = v.id →
        u.originalName = v.originalName → entryName u = entryName v) ∧
    (∀ (f1 f2 : FileReadOutcome) (eventId : String)
        (fetchBlob : String → Option (List Nat)) (e1 e2 : Event),
        findEvent f1 eventId = some e1 → findEvent f2 eventId = some e2 →
        e1.uploads = e2.uploads →
        downloadEntryNames f1 eventId fetchBlob = downloadEntryNames f2 eventId fetchBlob) ∧
    (∀ u v : UploadRecord, u.guestName = v.guestName → u.id ≠ v.id →
        '.' ∉ u.id.data → '.' ∉ v.id.data → entryName u ≠ entryName v) := by
  refine ⟨?_, ?_, entryName_ne_of_id_ne⟩
  · intro u v hg hid ho
    unfold entryName
    rw [hg, hid, ho]
  · intro f1 f2 eventId fetchBlob e1 e2 h1 h2 hu
    by_cases hz : e2.uploads.length = 0
    · simp [downloadEntryNames, downloadEndpoint, h1, h2, hu, hz]
    · simp [downloadEntryNames, downloadEndpoint, h1, h2, hu, hz]

/-- Record equal to sampleU1 except for its storage key, URL fields. -/
def sampleU1AltKey : UploadRecord :=
  ⟨"id1", "other-key", "a.jpg", "other-url", "other-url", "image/jpeg", 3,
    "Alice", "", "t1", "other-key"⟩

/-- Record equal to sampleU1 except for its id. -/
def sampleU1OtherId : UploadRecord :=
  ⟨"id2", "pub1", "a.jpg", "urlA", "urlA", "image/jpeg", 3, "Alice", "", "t1", "pub1"⟩

/-- Witness for C7: a record equal to sampleU1 except for its storage
key fields yields the same entry name; the repeated download of the
Wedding gallery yields the same names; distinct ids under the same
guest name yield distinct names. -/
theorem C7_entry_names_witness :
    entryName sampleU1 = entryName sampleU1AltKey ∧
    downloadEntryNames sampleMeta "wed12345-xyz" sampleFetch =
      downloadEntryNames sampleMeta "wed12345-xyz" sampleFetch ∧
    entryName sampleU1 ≠ entryName sampleU1OtherId :=
  ⟨C7_entry_names_deterministic_and_collision_free.1 _ _ rfl rfl rfl,
   C7_entry_names_deterministic_and_collision_free.2.1 sampleMeta sampleMeta "wed12345-xyz"
     sampleFetch sampleWedding sampleWedding rfl rfl rfl,
   C7_entry_names_deterministic_and_collision_free.2.2 _ _ rfl (by decide) (by decide) (by decide)⟩

end PhotosTank
